import Mathlib

/-!
Shallow embedding of the prompt-construction and provider-selection logic of
the caption-generator Flask application (`src/app.py`).

Request bodies are JSON objects whose fields may be absent; each field is
modelled as an `Option String` (`none` = key absent).  Provider clients that
may be unconfigured at process start, and whose calls may throw or return
text, are modelled by explicit per-request outcome values.  Each route
handler becomes a pure function from the request and the environment of
provider outcomes to the HTTP response, paired with the list of outbound
calls it performed (so that "the backend is never invoked" is provable).
-/

namespace CaptionApp

set_option maxRecDepth 10000

/-- Python's `str.strip()` on the underlying character list. -/
def stripChars (l : List Char) : List Char :=
  ((l.dropWhile Char.isWhitespace).reverse.dropWhile Char.isWhitespace).reverse

/-- Python's `str.strip()`: remove leading and trailing whitespace. -/
def pyStrip (s : String) : String := ⟨stripChars s.data⟩

/-- JSON body of a response, as produced by the `jsonify` calls in `app.py`. -/
inductive Body
  | caption (s : String)
  | description (s : String)
  | imageUrl (s : String)
  | error (s : String)
deriving DecidableEq

/-- An HTTP response: status code plus JSON body. -/
structure Resp where
  status : Nat
  body : Body
deriving DecidableEq

/-- The two text/vision generative backends of `app.py`. -/
inductive Backend
  | openai
  | gemini
deriving DecidableEq

/-- Per-request state of one backend client: the client handle is `None`
(construction failed or credential absent), or the call raises, or the call
returns text `s` (the raw text before `.strip()`). -/
inductive BackendState
  | unconfigured
  | throws
  | returns (s : String)
deriving DecidableEq

/-- The JSON body of a `POST /generate-caption` request (`none` = key absent),
mirroring the `data.get` reads in `generate_caption` (`app.py` lines 158-165). -/
structure GenReq where
  topic : Option String
  platform : Option String
  tone : Option String
  contentType : Option String
  language : Option String
  keywords : Option String
  model_choice : Option String
  brand_voice : Option String
deriving DecidableEq

/-- The `content_map` dict of `generate_caption` (`app.py` lines 167-172). -/
def content_map : String → Option String
  | "Caption" => some "a full caption (including a hook, body, and CTA)"
  | "Hook" => some "only a compelling hook"
  | "CTA" => some "only a strong call-to-action (CTA)"
  | "Hashtags" => some "a list of 10 relevant hashtags"
  | _ => none

/-- `content_map.get(content_type, 'a full caption')` (`app.py` line 173). -/
def requested_content (ct : String) : String :=
  (content_map ct).getD "a full caption"

/-- The brand-voice directive paragraph (`app.py` line 177), including its
trailing blank line. -/
def brandVoiceDirective (bv : String) : String :=
  "SPECIAL INSTRUCTION: Adhere strictly to the following brand voice: '"
    ++ bv ++ "'.\n\n"

/-- The main instruction body of the prompt (`app.py` lines 178-185). -/
def basePrompt (topic platform tone ct language keywords : String) : String :=
  "Generate 3 distinct options for " ++ requested_content ct
    ++ " for a " ++ platform ++ " post.\n"
    ++ "The main topic is: '" ++ topic ++ "'.\n"
    ++ "The desired tone is: " ++ tone ++ ".\n"
    ++ "Keywords to include: " ++ (if keywords = "" then "None" else keywords) ++ ".\n"
    ++ "The output language must be strictly " ++ language ++ ".\n"
    ++ "Structure the output as a numbered list."

/-- The full prompt (`app.py` lines 175-185): the directive is prepended only
when `brand_voice` is truthy (non-empty). -/
def buildPrompt (topic platform tone ct language keywords brand_voice : String) : String :=
  (if brand_voice = "" then "" else brandVoiceDirective brand_voice)
    ++ basePrompt topic platform tone ct language keywords

/-- The prompt `generate_caption` builds for a request, with the defaults of
the `data.get` calls (`app.py` lines 158-165). -/
def promptOf (data : GenReq) : String :=
  buildPrompt (data.topic.getD "") (data.platform.getD "social")
    (data.tone.getD "neutral") (data.contentType.getD "Caption")
    (data.language.getD "Greek") (data.keywords.getD "")
    (data.brand_voice.getD "")

/-- Per-request state of the two text backends. -/
structure TextBackends where
  openai : BackendState
  gemini : BackendState
deriving DecidableEq

/-- The state of the backend selected by `generate_caption`. -/
def backendState (be : TextBackends) : Backend → BackendState
  | .openai => be.openai
  | .gemini => be.gemini

/-- The backend `generate_caption` routes to (`app.py` line 188): exactly the
value `"gemini"` selects Gemini; every other value (the default is
`"openai"`) selects OpenAI. -/
def selectedBackend (data : GenReq) : Backend :=
  if data.model_choice.getD "openai" = "gemini" then .gemini else .openai

/-- The other backend. -/
def otherBackend : Backend → Backend
  | .openai => .gemini
  | .gemini => .openai

/-- `POST /generate-caption` (`app.py` lines 151-208).  Returns the response
and the list of backend invocations performed, each with the prompt sent.
An unconfigured selected backend raises `ConnectionError` before any call, so
it contributes no invocation; the `except` clause maps every raise to a 500
whose message names `model_choice`. -/
def generate_caption (data : GenReq) (be : TextBackends) :
    Resp × List (Backend × String) :=
  match data.topic with
  | none => (⟨400, .error "Topic is required"⟩, [])
  | some _ =>
    let prompt := promptOf data
    let model_choice := data.model_choice.getD "openai"
    let apiError : Body := .error ("An error occurred with the " ++ model_choice ++ " API.")
    if model_choice = "gemini" then
      match be.gemini with
      | .unconfigured => (⟨500, apiError⟩, [])
      | .throws => (⟨500, apiError⟩, [(.gemini, prompt)])
      | .returns s =>
        if pyStrip s = "" then
          (⟨502, .error "Empty response from the AI model."⟩, [(.gemini, prompt)])
        else (⟨200, .caption (pyStrip s)⟩, [(.gemini, prompt)])
    else
      match be.openai with
      | .unconfigured => (⟨500, apiError⟩, [])
      | .throws => (⟨500, apiError⟩, [(.openai, prompt)])
      | .returns s =>
        if pyStrip s = "" then
          (⟨502, .error "Empty response from the AI model."⟩, [(.openai, prompt)])
        else (⟨200, .caption (pyStrip s)⟩, [(.openai, prompt)])

/-- `POST /generate-image` (`app.py` lines 210-232).  `imagesCall` is the
outcome of `openai_client.images.generate` (`.ok url` or a raise); the second
component is `some fullPrompt` when the backend was invoked with that prompt,
`none` when it was never invoked. -/
def generate_image (openaiConfigured : Bool) (dataPrompt dataStyle : Option String)
    (imagesCall : Except Unit String) : Resp × Option String :=
  if openaiConfigured = false then
    (⟨500, .error "OpenAI client is not configured."⟩, none)
  else
    let prompt := pyStrip (dataPrompt.getD "")
    let style := dataStyle.getD "photorealistic"
    if prompt = "" then (⟨400, .error "Image prompt is required"⟩, none)
    else
      let fullPrompt := prompt ++ ", in a " ++ style ++ " style."
      match imagesCall with
      | .ok url => (⟨200, .imageUrl url⟩, some fullPrompt)
      | .error _ => (⟨500, .error "Failed to generate image."⟩, some fullPrompt)

/-- Environment of `POST /analyze-image`: whether each vision provider is
configured, whether the outbound image fetch succeeds (2xx), and the outcome
of each provider call (`.error` = raise, `.ok s` = returned text `s`). -/
structure VisionEnv where
  geminiConfigured : Bool
  fetchOk : Bool
  geminiCall : Except Unit String
  openaiConfigured : Bool
  openaiCall : Except Unit String

/-- One outbound network call of `analyze_image`. -/
inductive OutCall
  | fetch
  | geminiVision
  | openaiVision
deriving DecidableEq

/-- The primary (Gemini) attempt of `analyze_image` (`app.py` lines 242-262):
yields `some text` on non-empty stripped text, `none` otherwise (fetch
failure, raise, or empty text — all fall through), plus the outbound calls
made.  A failed fetch (network error or `raise_for_status`) raises inside
the `try`, so the Gemini call itself is never reached. -/
def primaryAttempt (env : VisionEnv) : Option String × List OutCall :=
  if env.geminiConfigured then
    if env.fetchOk then
      match env.geminiCall with
      | .error _ => (none, [.fetch, .geminiVision])
      | .ok s =>
        (if pyStrip s = "" then none else some (pyStrip s), [.fetch, .geminiVision])
    else (none, [.fetch])
  else (none, [])

/-- `POST /analyze-image` (`app.py` lines 234-287): validate the URL, run the
primary (Gemini) attempt, and fall back to OpenAI vision when the primary did
not yield text. -/
def analyze_image (imageUrlField : Option String) (env : VisionEnv) :
    Resp × List OutCall :=
  let url := pyStrip (imageUrlField.getD "")
  if url = "" then (⟨400, .error "Image URL is required"⟩, [])
  else
    let primary := primaryAttempt env
    match primary.1 with
    | some t => (⟨200, .description t⟩, primary.2)
    | none =>
      if env.openaiConfigured = false then
        (⟨500, .error "No available AI provider for image analysis."⟩, primary.2)
      else
        match env.openaiCall with
        | .error _ => (⟨500, .error "Failed to analyze image."⟩, primary.2 ++ [.openaiVision])
        | .ok s =>
          if pyStrip s = "" then
            (⟨502, .error "Empty response from the AI model."⟩, primary.2 ++ [.openaiVision])
          else (⟨200, .description (pyStrip s)⟩, primary.2 ++ [.openaiVision])

/-! ## Claim C1 -/

/-- Swapping the `content_type` of a prompt changes its length by exactly the
difference of the two resolved content phrases. -/
lemma buildPrompt_length_sub (t p tn : String) (ct1 ct2 : String)
    (lg kw bv : String) :
    (buildPrompt t p tn ct1 lg kw bv).length + (requested_content ct2).length =
      (buildPrompt t p tn ct2 lg kw bv).length + (requested_content ct1).length := by
  simp only [buildPrompt, basePrompt, String.length_append, apply_ite String.length]
  omega

/-- C1 counterexample: a request with the unrecognized `content_type`
`"Promo"` produces a prompt that is NOT byte-identical to the prompt of the
same request with `content_type = "Caption"`, because the dict-lookup default
is the distinct string `'a full caption'`, not the Caption phrasing. -/
theorem contentType_unknown_prompt_differs_cex :
    promptOf ⟨some "t", none, none, some "Promo", none, none, none, none⟩ ≠
      promptOf ⟨some "t", none, none, some "Caption", none, none, none, none⟩ := by
  decide

/-- C1 (amended): a request with `content_type` absent produces a prompt
byte-identical to the same request with `content_type = "Caption"`; but a
request whose `content_type` is present and outside
{Caption, Hook, CTA, Hashtags} resolves to the fallback phrase
`'a full caption'` (not the Caption phrasing), and its prompt differs from
the Caption prompt. -/
theorem contentType_fallback_prompt (data : GenReq) :
    (data.contentType = none →
      promptOf data = promptOf { data with contentType := some "Caption" }) ∧
    (∀ ct, data.contentType = some ct → content_map ct = none →
      requested_content ct = "a full caption" ∧
      promptOf data ≠ promptOf { data with contentType := some "Caption" }) := by
  constructor
  · intro h
    simp [promptOf, h]
  · intro ct hct hmap
    refine ⟨by simp [requested_content, hmap], ?_⟩
    intro heq
    have hlen := congrArg String.length heq
    simp only [promptOf, hct, Option.getD_some] at hlen
    have hsub := buildPrompt_length_sub (data.topic.getD "")
      (data.platform.getD "social") (data.tone.getD "neutral") ct "Caption"
      (data.language.getD "Greek") (data.keywords.getD "")
      (data.brand_voice.getD "")
    have h1 : requested_content ct = "a full caption" := by
      simp [requested_content, hmap]
    have h2 : requested_content "Caption" =
        "a full caption (including a hook, body, and CTA)" := rfl
    have h14 : ("a full caption" : String).length = 14 := rfl
    have h48 : ("a full caption (including a hook, body, and CTA)" : String).length = 48 := rfl
    rw [h1, h2, h14, h48] at hsub
    omega

/-- C1 witness for `contentType_fallback_prompt`. -/
theorem contentType_fallback_prompt_witness :
    (promptOf ⟨some "t", none, none, none, none, none, none, none⟩ =
      promptOf { (⟨some "t", none, none, none, none, none, none, none⟩ : GenReq) with
        contentType := some "Caption" }) ∧
    (promptOf ⟨some "t", none, none, some "Story", none, none, none, none⟩ ≠
      promptOf { (⟨some "t", none, none, some "Story", none, none, none, none⟩ : GenReq) with
        contentType := some "Caption" }) :=
  ⟨(contentType_fallback_prompt _).1 rfl,
   ((contentType_fallback_prompt _).2 "Story" rfl rfl).2⟩

/-! ## Claim C2 -/

/-- `generate_caption` in terms of the selected backend: the two arms of the
`model_choice` conditional are identical up to which backend state they
consult and which backend they invoke. -/
lemma generate_caption_eq (data : GenReq) (be : TextBackends) :
    generate_caption data be =
      match data.topic with
      | none => (⟨400, Body.error "Topic is required"⟩, [])
      | some _ =>
        match backendState be (selectedBackend data) with
        | .unconfigured =>
          (⟨500, Body.error ("An error occurred with the "
            ++ data.model_choice.getD "openai" ++ " API.")⟩, [])
        | .throws =>
          (⟨500, Body.error ("An error occurred with the "
            ++ data.model_choice.getD "openai" ++ " API.")⟩,
           [(selectedBackend data, promptOf data)])
        | .returns s =>
          if pyStrip s = "" then
            (⟨502, Body.error "Empty response from the AI model."⟩,
             [(selectedBackend data, promptOf data)])
          else
            (⟨200, Body.caption (pyStrip s)⟩,
             [(selectedBackend data, promptOf data)]) := by
  obtain ⟨t, pf, tn, ct, lg, kw, mc, bv⟩ := data
  obtain ⟨beo, beg⟩ := be
  cases t with
  | none => rfl
  | some tv =>
    simp only [generate_caption, selectedBackend]
    split_ifs with hmc
    · cases beg <;> rfl
    · cases beo <;> rfl

/-- The backend `otherBackend b` differs from `b`. -/
lemma otherBackend_ne (b : Backend) : otherBackend b ≠ b := by
  cases b <;> simp [otherBackend]

/-- Core routing facts of `generate_caption`, for whichever backend
`model_choice` selects: only the selected backend is ever invoked; it is
invoked exactly once when configured; and an unconfigured or throwing
selected backend yields a 500 without the other backend being invoked. -/
lemma generate_caption_sel (data : GenReq) (be : TextBackends) (sel : Backend)
    (hsel : selectedBackend data = sel) :
    (∀ b p, (b, p) ∈ (generate_caption data be).2 → b = sel) ∧
    (data.topic.isSome = true → backendState be sel ≠ .unconfigured →
      (generate_caption data be).2 = [(sel, promptOf data)]) ∧
    (data.topic.isSome = true →
      (backendState be sel = .unconfigured ∨ backendState be sel = .throws) →
      (generate_caption data be).1.status = 500 ∧
        ∀ p, (otherBackend sel, p) ∉ (generate_caption data be).2) := by
  have he := generate_caption_eq data be
  rw [hsel] at he
  cases htop : data.topic with
  | none =>
    simp only [htop] at he
    refine ⟨?_, ?_, ?_⟩ <;> simp [he, htop]
  | some tv =>
    simp only [htop] at he
    cases hbs : backendState be sel with
    | unconfigured =>
      simp only [hbs] at he
      refine ⟨?_, ?_, ?_⟩ <;> simp [he, htop, hbs]
    | throws =>
      simp only [hbs] at he
      refine ⟨?_, ?_, ?_⟩ <;>
        simp [he, htop, hbs, otherBackend_ne sel]
    | returns s =>
      simp only [hbs] at he
      by_cases hs : pyStrip s = "" <;>
        · simp only [hs, if_true, if_false, ite_true, ite_false, reduceIte] at he
          refine ⟨?_, ?_, ?_⟩ <;> simp [he, htop, hbs, eq_comm]

/-- C2: `generate_caption` invokes at most the backend selected by
`model_choice` (`"gemini"` selects Gemini, every other value including
absence selects OpenAI); when the selected backend is configured it is
invoked exactly once; when it is unconfigured or throws, the request fails
with HTTP 500 and the other backend is never invoked — no inter-provider
fallback for text. -/
theorem generate_caption_single_backend (data : GenReq) (be : TextBackends) :
    (data.model_choice = some "gemini" →
      (∀ b p, (b, p) ∈ (generate_caption data be).2 → b = Backend.gemini) ∧
      (data.topic.isSome = true → be.gemini ≠ .unconfigured →
        (generate_caption data be).2 = [(Backend.gemini, promptOf data)]) ∧
      (data.topic.isSome = true →
        (be.gemini = .unconfigured ∨ be.gemini = .throws) →
        (generate_caption data be).1.status = 500 ∧
          ∀ p, (Backend.openai, p) ∉ (generate_caption data be).2)) ∧
    (data.model_choice ≠ some "gemini" →
      (∀ b p, (b, p) ∈ (generate_caption data be).2 → b = Backend.openai) ∧
      (data.topic.isSome = true → be.openai ≠ .unconfigured →
        (generate_caption data be).2 = [(Backend.openai, promptOf data)]) ∧
      (data.topic.isSome = true →
        (be.openai = .unconfigured ∨ be.openai = .throws) →
        (generate_caption data be).1.status = 500 ∧
          ∀ p, (Backend.gemini, p) ∉ (generate_caption data be).2)) := by
  constructor
  · intro h
    have hsel : selectedBackend data = .gemini := by simp [selectedBackend, h]
    simpa [backendState] using generate_caption_sel data be .gemini hsel
  · intro h
    have hsel : selectedBackend data = .openai := by
      cases hm : data.model_choice with
      | none => simp [selectedBackend, hm]
      | some v =>
        have hv : v ≠ "gemini" := by
          intro hveq; exact h (by rw [hm, hveq])
        simp [selectedBackend, hm, hv]
    simpa [backendState, otherBackend] using
      generate_caption_sel data be .openai hsel

/-- C2 witness for `generate_caption_single_backend`: with `model_choice =
"gemini"` and a throwing Gemini backend, the request fails with 500 and the
(configured, would-succeed) OpenAI backend is never invoked. -/
theorem generate_caption_single_backend_witness :
    (generate_caption ⟨some "sunset", none, none, none, none, none, some "gemini", none⟩
        ⟨.returns "hello", .throws⟩).1.status = 500 ∧
    (generate_caption ⟨some "sunset", none, none, none, none, none, none, none⟩
        ⟨.returns "hi", .throws⟩).2 =
      [(Backend.openai,
        promptOf ⟨some "sunset", none, none, none, none, none, none, none⟩)] :=
  ⟨(((generate_caption_single_backend
        ⟨some "sunset", none, none, none, none, none, some "gemini", none⟩
        ⟨.returns "hello", .throws⟩).1 rfl).2.2 rfl (Or.inr rfl)).1,
   ((generate_caption_single_backend
        ⟨some "sunset", none, none, none, none, none, none, none⟩
        ⟨.returns "hi", .throws⟩).2 (by simp)).2.1 rfl (by simp)⟩

/-! ## Claim C3 -/

/-- C3: with the primary vision provider configured, a failed image fetch
(network error or non-2xx) is a primary-provider failure: the response is
not a 400, and the secondary provider is attempted when configured. -/
theorem analyze_image_fetch_failure_falls_back (u : String) (env : VisionEnv)
    (hu : pyStrip u ≠ "") (hg : env.geminiConfigured = true)
    (hf : env.fetchOk = false) :
    (analyze_image (some u) env).1.status ≠ 400 ∧
    (env.openaiConfigured = true →
      OutCall.openaiVision ∈ (analyze_image (some u) env).2) := by
  obtain ⟨g, f, gc, oc, occ⟩ := env
  simp only at hg hf
  subst hg hf
  cases oc <;> rcases occ with _ | s <;>
    first
      | (simp [analyze_image, primaryAttempt, hu]; done)
      | (by_cases hs : pyStrip s = "" <;>
          simp [analyze_image, primaryAttempt, hu, hs])

/-- C3 witness for `analyze_image_fetch_failure_falls_back`. -/
theorem analyze_image_fetch_failure_falls_back_witness :
    (analyze_image (some "u")
        ⟨true, false, Except.ok "x", true, Except.ok "desc"⟩).1.status ≠ 400 ∧
    OutCall.openaiVision ∈
      (analyze_image (some "u")
        ⟨true, false, Except.ok "x", true, Except.ok "desc"⟩).2 :=
  ⟨(analyze_image_fetch_failure_falls_back "u"
      ⟨true, false, Except.ok "x", true, Except.ok "desc"⟩ (by decide) rfl rfl).1,
   (analyze_image_fetch_failure_falls_back "u"
      ⟨true, false, Except.ok "x", true, Except.ok "desc"⟩ (by decide) rfl rfl).2 rfl⟩

/-! ## Claim C4 -/

/-- C4: when the primary vision provider is configured, the fetch succeeds
and the primary call returns non-empty text, `analyze-image` returns 200
with that (stripped) text and the secondary provider is never invoked. -/
theorem analyze_image_primary_success (u : String) (env : VisionEnv) (s : String)
    (hu : pyStrip u ≠ "") (hg : env.geminiConfigured = true)
    (hf : env.fetchOk = true) (hc : env.geminiCall = Except.ok s)
    (hs : pyStrip s ≠ "") :
    (analyze_image (some u) env).1 = ⟨200, .description (pyStrip s)⟩ ∧
    OutCall.openaiVision ∉ (analyze_image (some u) env).2 := by
  obtain ⟨g, f, gc, oc, occ⟩ := env
  simp only at hg hf hc
  subst hg hf hc
  simp [analyze_image, primaryAttempt, hu, hs]

/-- C4 witness for `analyze_image_primary_success`. -/
theorem analyze_image_primary_success_witness :
    (analyze_image (some "u")
        ⟨true, true, Except.ok " desc ", true, Except.ok "other"⟩).1 =
      ⟨200, .description "desc"⟩ ∧
    OutCall.openaiVision ∉
      (analyze_image (some "u")
        ⟨true, true, Except.ok " desc ", true, Except.ok "other"⟩).2 :=
  ⟨(analyze_image_primary_success "u"
      ⟨true, true, Except.ok " desc ", true, Except.ok "other"⟩ " desc "
      (by decide) rfl rfl rfl (by decide)).1,
   (analyze_image_primary_success "u"
      ⟨true, true, Except.ok " desc ", true, Except.ok "other"⟩ " desc "
      (by decide) rfl rfl rfl (by decide)).2⟩

/-! ## Claim C5 -/

/-- C5: with a non-empty `image_url` and neither vision provider configured,
`analyze-image` responds 500 with the `AllProvidersFailed`-class message and
performs no outbound call at all. -/
theorem analyze_image_no_provider (url : Option String) (env : VisionEnv)
    (hu : pyStrip (url.getD "") ≠ "") (hg : env.geminiConfigured = false)
    (ho : env.openaiConfigured = false) :
    (analyze_image url env).1 =
      ⟨500, .error "No available AI provider for image analysis."⟩ ∧
    (analyze_image url env).2 = [] := by
  obtain ⟨g, f, gc, oc, occ⟩ := env
  simp only at hg ho
  subst hg ho
  simp [analyze_image, primaryAttempt, hu]

/-- C5 witness for `analyze_image_no_provider`. -/
theorem analyze_image_no_provider_witness :
    (analyze_image (some "http://x")
        ⟨false, true, Except.ok "x", false, Except.ok "y"⟩).1 =
      ⟨500, .error "No available AI provider for image analysis."⟩ ∧
    (analyze_image (some "http://x")
        ⟨false, true, Except.ok "x", false, Except.ok "y"⟩).2 = [] :=
  analyze_image_no_provider (some "http://x")
    ⟨false, true, Except.ok "x", false, Except.ok "y"⟩ (by decide) rfl rfl

/-! ## Claim C6 -/

/-- C6 counterexample: with the image-synthesis backend unconfigured, a
`generate-image` request with an empty prompt is answered 500 (the
configuration check runs first), not 400 as the claim states. -/
theorem generate_image_unconfigured_empty_prompt_cex :
    (generate_image false (some "") none (Except.error ())).1.status ≠ 400 := by
  decide

/-- C6 (amended): a `generate-image` request whose prompt is empty after
stripping yields HTTP 400 when the image-synthesis backend is configured and
HTTP 500 (unconfigured-client error) when it is not; in both cases the
backend is never invoked. -/
theorem generate_image_empty_prompt (cfg : Bool) (p st : Option String)
    (call : Except Unit String) (hp : pyStrip (p.getD "") = "") :
    (generate_image cfg p st call).1.status = (if cfg then 400 else 500) ∧
    (generate_image cfg p st call).2 = none := by
  cases cfg <;> simp [generate_image, hp]

/-- C6 witness for `generate_image_empty_prompt`. -/
theorem generate_image_empty_prompt_witness :
    (generate_image true (some " ") none (Except.error ())).1.status = 400 ∧
    (generate_image false (some " ") none (Except.error ())).1.status = 500 ∧
    (generate_image true (some " ") none (Except.error ())).2 = none := by
  refine ⟨?_, ?_, ?_⟩
  · simpa using
      (generate_image_empty_prompt true (some " ") none (Except.error ()) (by decide)).1
  · simpa using
      (generate_image_empty_prompt false (some " ") none (Except.error ()) (by decide)).1
  · exact (generate_image_empty_prompt true (some " ") none (Except.error ()) (by decide)).2

/-! ## Claim C7 -/

/-- C7: a nominally successful provider call returning empty or
whitespace-only text yields the `EmptyResponse` 502, never a 200 with blank
text — for `generate-caption` with whichever text backend is selected, and
for `analyze-image` when the secondary provider returns empty text. -/
theorem empty_provider_text_yields_502 (data : GenReq) (be : TextBackends)
    (u : String) (env : VisionEnv) :
    (data.topic.isSome = true →
      ∀ s, backendState be (selectedBackend data) = .returns s → pyStrip s = "" →
      (generate_caption data be).1 =
        ⟨502, .error "Empty response from the AI model."⟩) ∧
    (pyStrip u ≠ "" → (primaryAttempt env).1 = none →
      env.openaiConfigured = true →
      ∀ s, env.openaiCall = Except.ok s → pyStrip s = "" →
      (analyze_image (some u) env).1 =
        ⟨502, .error "Empty response from the AI model."⟩) := by
  constructor
  · intro htop s hbs hs
    have he := generate_caption_eq data be
    cases ht : data.topic with
    | none => rw [ht] at htop; simp at htop
    | some tv =>
      simp only [ht, hbs] at he
      simp [he, hs]
  · intro hu hpa ho s hoc hs
    simp [analyze_image, hu, hpa, ho, hoc, hs]

/-- C7 witness for `empty_provider_text_yields_502`. -/
theorem empty_provider_text_yields_502_witness :
    (generate_caption ⟨some "t", none, none, none, none, none, none, none⟩
        ⟨.returns "  ", .throws⟩).1 =
      ⟨502, .error "Empty response from the AI model."⟩ ∧
    (analyze_image (some "u") ⟨false, true, Except.ok "x", true, Except.ok " "⟩).1 =
      ⟨502, .error "Empty response from the AI model."⟩ :=
  ⟨(empty_provider_text_yields_502 ⟨some "t", none, none, none, none, none, none, none⟩
      ⟨.returns "  ", .throws⟩ "u" ⟨false, true, Except.ok "x", true, Except.ok " "⟩).1
      rfl "  " (by decide) (by decide),
   (empty_provider_text_yields_502 ⟨some "t", none, none, none, none, none, none, none⟩
      ⟨.returns "  ", .throws⟩ "u" ⟨false, true, Except.ok "x", true, Except.ok " "⟩).2
      (by decide) rfl rfl " " rfl (by decide)⟩

/-! ## Claim C8 -/

/-- C8: when `brand_voice` is empty or absent the prompt is exactly the main
instruction body (no brand-voice directive paragraph); when non-empty the
prompt is the brand-voice directive paragraph followed by a blank line and
then the main instruction body, so the directive is the first paragraph. -/
theorem brand_voice_first_paragraph (data : GenReq) :
    (data.brand_voice.getD "" = "" → promptOf data =
      basePrompt (data.topic.getD "") (data.platform.getD "social")
        (data.tone.getD "neutral") (data.contentType.getD "Caption")
        (data.language.getD "Greek") (data.keywords.getD "")) ∧
    (data.brand_voice.getD "" ≠ "" → promptOf data =
      ("SPECIAL INSTRUCTION: Adhere strictly to the following brand voice: '"
          ++ data.brand_voice.getD "" ++ "'.\n\n")
        ++ basePrompt (data.topic.getD "") (data.platform.getD "social")
            (data.tone.getD "neutral") (data.contentType.getD "Caption")
            (data.language.getD "Greek") (data.keywords.getD "")) := by
  constructor <;> intro h <;>
    simp [promptOf, buildPrompt, brandVoiceDirective, h, String.empty_append]

/-- C8 witness for `brand_voice_first_paragraph`. -/
theorem brand_voice_first_paragraph_witness :
    (promptOf ⟨some "t", none, none, none, none, none, none, none⟩ =
      basePrompt "t" "social" "neutral" "Caption" "Greek" "") ∧
    (promptOf ⟨some "t", none, none, none, none, none, none, some "Friendly"⟩ =
      ("SPECIAL INSTRUCTION: Adhere strictly to the following brand voice: '"
          ++ "Friendly" ++ "'.\n\n")
        ++ basePrompt "t" "social" "neutral" "Caption" "Greek" "") :=
  ⟨(brand_voice_first_paragraph
      ⟨some "t", none, none, none, none, none, none, none⟩).1 rfl,
   (brand_voice_first_paragraph
      ⟨some "t", none, none, none, none, none, none, some "Friendly"⟩).2 (by decide)⟩

/-! ## Claim C9 -/

/-- C9: `generate-caption` validates only the presence of the `topic` key:
with `topic` present but equal to the empty string the request is not
rejected with 400, the prompt quotes the empty topic (`''`), and the
selected backend is invoked with that prompt whenever it is configured. -/
theorem generate_caption_topic_presence_only (data : GenReq) (be : TextBackends)
    (h : data.topic = some "") :
    (generate_caption data be).1.status ≠ 400 ∧
    (∃ pre post, promptOf data = pre ++ "The main topic is: ''.\n" ++ post) ∧
    (backendState be (selectedBackend data) ≠ .unconfigured →
      (generate_caption data be).2 = [(selectedBackend data, promptOf data)]) := by
  refine ⟨?_, ?_, ?_⟩
  · have he := generate_caption_eq data be
    simp only [h] at he
    cases hbs : backendState be (selectedBackend data) <;> simp only [hbs] at he
    · simp [he]
    · simp [he]
    · rename_i s
      by_cases hs : pyStrip s = "" <;> simp [he, hs]
  · refine ⟨(if data.brand_voice.getD "" = "" then ""
        else brandVoiceDirective (data.brand_voice.getD ""))
        ++ ("Generate 3 distinct options for "
            ++ requested_content (data.contentType.getD "Caption")
            ++ " for a " ++ data.platform.getD "social" ++ " post.\n"),
      "The desired tone is: " ++ data.tone.getD "neutral" ++ ".\n"
        ++ ("Keywords to include: "
            ++ (if data.keywords.getD "" = "" then "None" else data.keywords.getD "")
            ++ ".\n")
        ++ ("The output language must be strictly " ++ data.language.getD "Greek"
            ++ ".\n")
        ++ "Structure the output as a numbered list.", ?_⟩
    apply String.ext
    simp [promptOf, buildPrompt, basePrompt, h, String.data_append,
      List.append_assoc]
  · intro hbs
    exact (generate_caption_sel data be (selectedBackend data) rfl).2.1
      (by simp [h]) hbs

/-- C9 witness for `generate_caption_topic_presence_only`. -/
theorem generate_caption_topic_presence_only_witness :
    (generate_caption ⟨some "", none, none, none, none, none, none, none⟩
        ⟨.returns "x", .throws⟩).1.status ≠ 400 ∧
    (∃ pre post, promptOf ⟨some "", none, none, none, none, none, none, none⟩ =
        pre ++ "The main topic is: ''.\n" ++ post) ∧
    (generate_caption ⟨some "", none, none, none, none, none, none, none⟩
        ⟨.returns "x", .throws⟩).2 =
      [(Backend.openai,
        promptOf ⟨some "", none, none, none, none, none, none, none⟩)] := by
  have h := generate_caption_topic_presence_only
    ⟨some "", none, none, none, none, none, none, none⟩ ⟨.returns "x", .throws⟩ rfl
  exact ⟨h.1, h.2.1, h.2.2 (by decide)⟩

/-! ## Claim C10 -/

/-- C10: when the primary vision provider is configured but its attempt fails
(fetch failure, provider exception, or empty text) and the secondary is not
configured, `analyze-image` answers 500 with the same
"No available AI provider for image analysis." message. -/
theorem analyze_image_primary_failed_secondary_unconfigured (u : String)
    (env : VisionEnv) (hu : pyStrip u ≠ "")
    (hg : env.geminiConfigured = true) (ho : env.openaiConfigured = false)
    (hfail : env.fetchOk = false ∨ env.geminiCall = Except.error () ∨
      ∃ s, env.geminiCall = Except.ok s ∧ pyStrip s = "") :
    (analyze_image (some u) env).1 =
      ⟨500, .error "No available AI provider for image analysis."⟩ := by
  obtain ⟨g, f, gc, oc, occ⟩ := env
  simp only at hg ho hfail
  subst hg ho
  rcases hfail with hf | hc | ⟨s, hc, hs⟩
  · subst hf
    simp [analyze_image, primaryAttempt, hu]
  · subst hc
    cases f <;> simp [analyze_image, primaryAttempt, hu]
  · subst hc
    cases f <;> simp [analyze_image, primaryAttempt, hu, hs]

/-- C10 witness for `analyze_image_primary_failed_secondary_unconfigured`. -/
theorem analyze_image_primary_failed_secondary_unconfigured_witness :
    (analyze_image (some "u")
        ⟨true, false, Except.ok "x", false, Except.ok "y"⟩).1 =
      ⟨500, .error "No available AI provider for image analysis."⟩ ∧
    (analyze_image (some "u")
        ⟨true, true, Except.ok " ", false, Except.ok "y"⟩).1 =
      ⟨500, .error "No available AI provider for image analysis."⟩ :=
  ⟨analyze_image_primary_failed_secondary_unconfigured "u"
      ⟨true, false, Except.ok "x", false, Except.ok "y"⟩ (by decide) rfl rfl
      (Or.inl rfl),
   analyze_image_primary_failed_secondary_unconfigured "u"
      ⟨true, true, Except.ok " ", false, Except.ok "y"⟩ (by decide) rfl rfl
      (Or.inr (Or.inr ⟨" ", rfl, by decide⟩))⟩

end CaptionApp
